import Mathlib

/-!
Verification development for the `maxverstappen583/modmail` Discord bot.

The repository has two variants of the bot: `main.py` (embedded below in
namespace `MainPy`) and `modmail_bot.py` (namespace `BotPy`).  Both keep a
JSON-persisted ticket map `user_id -> channel_id`, create a private staff
channel per ticket, and relay messages between the user's DM and the ticket
channel.  The embedding below models the pure decision logic of those files:
identifiers are `Nat`s, the Discord guild is a snapshot of its channels and
roles, every network call that can fail or return a fresh object is an
explicit parameter (`Option Nat` for "the id the call returned, or `none` if
it raised"), and each `await` suspension relevant to a claim is an explicit
step boundary.
-/

namespace Modmail

/-- Association-list lookup, the model of a Python dict: first binding for
the key wins (our update functions never produce duplicate keys). -/
def alook {α β : Type} [DecidableEq α] : List (α × β) → α → Option β
  | [], _ => none
  | (a, b) :: r, k => if a = k then some b else alook r k

/-- Python dict assignment `d[u] = c`: overwrite any previous binding. -/
def setTicket (tk : List (Nat × Nat)) (u c : Nat) : List (Nat × Nat) :=
  (u, c) :: tk.filter (fun p => p.1 != u)

/-- Kinds of Discord channel the bots distinguish (`isinstance(...,
CategoryChannel)` versus everything else). -/
inductive ChanKind
  | category
  | text
deriving DecidableEq

/-- Snapshot of the guild as seen through `guild.get_channel` /
`guild.get_role`: which channel ids exist (and their kind) and which role ids
exist. -/
structure Guild where
  channels : List (Nat × ChanKind)
  roles : List Nat
deriving DecidableEq

/-- `guild.get_channel(cid)`: the channel's kind, if the id exists. -/
def Guild.getChan (g : Guild) (cid : Nat) : Option ChanKind :=
  alook g.channels cid

/-- `isinstance(guild.get_channel(cid), discord.CategoryChannel)`. -/
def Guild.isCat (g : Guild) (cid : Nat) : Bool :=
  match g.getChan cid with
  | some .category => true
  | _ => false

/-- `guild.get_role(rid) is not None`. -/
def Guild.hasRole (g : Guild) (rid : Nat) : Bool :=
  g.roles.contains rid

/-- Effect of a successful `create_text_channel`: the guild gains a text
channel with the returned id. -/
def Guild.addText (g : Guild) (cid : Nat) : Guild :=
  ⟨g.channels ++ [(cid, .text)], g.roles⟩

/-- `guild.get_channel(cid)` used where the code only cares whether the
channel object is there (returns the id back, as the model of the object). -/
def Guild.getChannelAny (g : Guild) (cid : Nat) : Option Nat :=
  match g.getChan cid with
  | some _ => some cid
  | none => none

/-- A message author as the handlers see it: whether the author resolved to a
`discord.Member` object, `member.guild_permissions.administrator`, and the
author's role ids. -/
structure Author where
  isMemberObj : Bool
  isAdmin : Bool
  roles : List Nat
deriving DecidableEq

/-- First ticket entry whose channel id matches, i.e. the reverse lookup
`for uid, cid in tickets.items(): if cid == channel.id` used by both files. -/
def findTicketUid : List (Nat × Nat) → Nat → Option Nat
  | [], _ => none
  | (u, c) :: r, ch => if c = ch then some u else findTicketUid r ch

/-! ### Byte-level substring helpers used to talk about rendered text -/

/-- `charsPref pat l`: `pat` is a prefix of `l` (Python `str.startswith`). -/
def charsPref : List Char → List Char → Bool
  | [], _ => true
  | _ :: _, [] => false
  | a :: as, b :: bs => a == b && charsPref as bs

/-- `charsSub pat l`: `pat` occurs as a contiguous substring of `l`. -/
def charsSub (pat : List Char) : List Char → Bool
  | [] => charsPref pat []
  | c :: cs => charsPref pat (c :: cs) || charsSub pat cs

/-- Substring test on strings (via their character lists). -/
def strContains (s pat : String) : Bool :=
  charsSub pat.data s.data

/-- Python truncation toward zero, `int(x)` on a float, modelled on ℚ. -/
def pyTrunc (q : ℚ) : ℤ :=
  if 0 ≤ q then ⌊q⌋ else ⌈q⌉

end Modmail

namespace MainPy

open Modmail

/-! ## Embedding of `main.py` -/

/-- Per-guild configuration record (`default_guild_config` et al.); the
ticket map is carried separately so state changes stay explicit. -/
structure GuildCfg where
  category_id : Option Nat
  staff_role_id : Option Nat
  log_channel_id : Option Nat
  cooldown : Int
deriving DecidableEq

/-- The error strings `create_ticket` can hand back, as a datatype. -/
inductive CreateErr
  | notConfigured
  | notFound
  | alreadyOpen
  | createFailed
deriving DecidableEq

/-- Result of the checks `create_ticket` performs before its
`await guild.create_text_channel(...)` suspension point:
either an early return (channel option, error option), or "proceed to the
network call". -/
inductive CheckRes
  | resolved (ch : Option Nat) (err : Option CreateErr)
  | proceed
deriving DecidableEq

/-- The check half of `create_ticket` (main.py lines 140-162): config
present (Python truthiness, so `None` and `0` both fail), category and staff
role resolvable, and the user not already in the ticket map. -/
def checkPhase (g : Guild) (tk : List (Nat × Nat)) (cfg : GuildCfg) (u : Nat) :
    CheckRes :=
  match cfg.category_id, cfg.staff_role_id with
  | some catId, some roleId =>
    if catId = 0 ∨ roleId = 0 then .resolved none (some .notConfigured)
    else if !(g.isCat catId) || !(g.hasRole roleId) then
      .resolved none (some .notFound)
    else
      match alook tk u with
      | some chId => .resolved (g.getChannelAny chId) (some .alreadyOpen)
      | none => .proceed
  | _, _ => .resolved none (some .notConfigured)

/-- Everything `create_ticket` returns and mutates. -/
structure CreateOut where
  g : Guild
  tickets : List (Nat × Nat)
  created : List Nat
  channel : Option Nat
  err : Option CreateErr
deriving DecidableEq

/-- `create_ticket` (main.py lines 140-208) run to completion: the check
phase, then the channel-creation network call (`netRes` is the id it
returned, `none` if it raised), then the commit
`cfg_g["tickets"][str(user.id)] = ch.id; save_cfg(CFG)`.  The subsequent
announcement / log / DM sends are all wrapped in bare `except: pass` and do
not affect state or result. -/
def createTicket (g : Guild) (tk : List (Nat × Nat)) (cfg : GuildCfg) (u : Nat)
    (netRes : Option Nat) : CreateOut :=
  match checkPhase g tk cfg u with
  | .resolved ch err => ⟨g, tk, [], ch, err⟩
  | .proceed =>
    match netRes with
    | none => ⟨g, tk, [], none, some .createFailed⟩
    | some c => ⟨g.addText c, setTicket tk u c, [c], some c, none⟩

/-! ### The create/commit race (main.py lines 152-169)

`create_ticket` suspends at `await guild.create_text_channel(...)` between
its "does this user already have a ticket" check and the commit of the new
record.  Two open-ticket triggers for the same user are modelled as two
processes, each advancing through the phases of `createTicket`; a schedule
says which process runs to its next suspension point. -/

/-- Where one in-flight `create_ticket` call stands: not yet run, suspended
at the channel-creation network call, or returned. -/
inductive PState
  | start
  | awaitingCreate
  | finished (ch : Option Nat) (err : Option CreateErr)
deriving DecidableEq

/-- Advance one process to its next suspension point / return.  `c` is the
channel id its network call returns when it reaches the commit phase. -/
def stepP (cfg : GuildCfg) (u c : Nat) (g : Guild) (tk : List (Nat × Nat))
    (cr : List Nat) (p : PState) : Guild × List (Nat × Nat) × List Nat × PState :=
  match p with
  | .start =>
    match checkPhase g tk cfg u with
    | .resolved ch err => (g, tk, cr, .finished ch err)
    | .proceed => (g, tk, cr, .awaitingCreate)
  | .awaitingCreate =>
    (g.addText c, setTicket tk u c, cr ++ [c], .finished (some c) none)
  | .finished ch err => (g, tk, cr, .finished ch err)

/-- Shared state plus the two processes' positions. -/
structure RaceState where
  g : Guild
  tickets : List (Nat × Nat)
  created : List Nat
  p0 : PState
  p1 : PState
deriving DecidableEq

/-- Run whichever process the scheduler picked (`false` = first trigger,
`true` = second trigger). -/
def raceStep (cfg : GuildCfg) (u c0 c1 : Nat) (s : RaceState) (who : Bool) :
    RaceState :=
  match who with
  | false =>
    match stepP cfg u c0 s.g s.tickets s.created s.p0 with
    | (g, tk, cr, p) => ⟨g, tk, cr, p, s.p1⟩
  | true =>
    match stepP cfg u c1 s.g s.tickets s.created s.p1 with
    | (g, tk, cr, p) => ⟨g, tk, cr, s.p0, p⟩

/-- Execute a schedule from an initial guild and ticket map, both processes
being open-ticket triggers for the same user `u`. -/
def raceRun (cfg : GuildCfg) (u c0 c1 : Nat) (g : Guild) (tk : List (Nat × Nat))
    (sched : List Bool) : RaceState :=
  sched.foldl (raceStep cfg u c0 c1) ⟨g, tk, [], .start, .start⟩

/-! ### Cooldown tracker (main.py lines 76-87) -/

/-- `_last_open.get((guild_id, user_id), 0)`. -/
def lookupLast (st : List ((Nat × Nat) × ℚ)) (k : Nat × Nat) : ℚ :=
  match alook st k with
  | some v => v
  | none => 0

/-- `in_cooldown`: `left = int(cd - (now - last)); return max(0, left)`. -/
def in_cooldown (st : List ((Nat × Nat) × ℚ)) (gid uid : Nat) (now : ℚ)
    (cd : ℤ) : ℤ :=
  max 0 (pyTrunc ((cd : ℚ) - (now - lookupLast st (gid, uid))))

/-- `start_cooldown`: `_last_open[(guild_id, user_id)] = loop.time()`. -/
def start_cooldown (st : List ((Nat × Nat) × ℚ)) (gid uid : Nat) (now : ℚ) :
    List ((Nat × Nat) × ℚ) :=
  ((gid, uid), now) :: st

/-! ### Transcript builder (main.py lines 125-137) -/

/-- A message attachment as the transcript code sees it. -/
structure Attachment where
  filename : String
  url : String
deriving DecidableEq

/-- One message from `channel.history(limit=None, oldest_first=True)`:
`createdAtStr` is the already-`strftime`-formatted timestamp, `authorStr` is
`str(m.author)`. -/
structure HMsg where
  createdAtStr : String
  authorStr : String
  authorId : Nat
  content : String
  attachments : List Attachment
deriving DecidableEq

/-- `f"[{ts}] {who}: {content}"` with `who = f"{m.author} ({m.author.id})"`. -/
def headerLine (m : HMsg) : String :=
  "[" ++ m.createdAtStr ++ "] " ++ m.authorStr ++ " (" ++ Nat.repr m.authorId
    ++ "): " ++ m.content

/-- `f"    [attachment] {a.url}"` — note: only the URL, not the filename. -/
def attLine (a : Attachment) : String :=
  "    [attachment] " ++ a.url

/-- The lines one message contributes to the transcript. -/
def msgLines (m : HMsg) : List String :=
  headerLine m :: m.attachments.map attLine

/-- `build_transcript`: iterate the full history (no `limit`), oldest first,
emitting each message's lines in order. -/
def build_transcript : List HMsg → List String
  | [] => []
  | m :: rest => msgLines m ++ build_transcript rest

/-- The header lines of a history, in history order. -/
def headersOf (msgs : List HMsg) : List String :=
  msgs.map headerLine

/-! ### close_ticket (main.py lines 210-256) -/

/-- Which of the fallible operations inside `close_ticket` succeed
(`true`) or raise (`false`); every one of them is wrapped in
`try/except` in the source. -/
structure CloseFlags where
  transcriptOk : Bool
  logOk : Bool
  fetchUserOk : Bool
  dmOk : Bool
  deleteOk : Bool
deriving DecidableEq

/-- The stages of `close_ticket`, in source order. -/
inductive CloseStep
  | buildTranscript
  | postLog
  | dmUser
  | removeRecord
  | deleteChannel
deriving DecidableEq

/-- Observable outcome of `close_ticket`. -/
structure CloseOut where
  steps : List CloseStep
  tickets : List (Nat × Nat)
  transcriptDelivered : Bool
  userDmDelivered : Bool
  channelDeleted : Bool
  surfacedToCloser : Bool
deriving DecidableEq

/-- Resolve the ticket's user: the channel topic if it is all digits
(`create_ticket` sets `topic=str(user.id)`), else reverse lookup in the
ticket map. -/
def resolveUid (topic : Option Nat) (tk : List (Nat × Nat)) (chanId : Nat) :
    Option Nat :=
  match topic with
  | some t => some t
  | none => findTicketUid tk chanId

/-- `close_ticket(channel, closed_by)`: build transcript (failure → `None`),
send the log embed with the transcript if built (`send_log` silently does
nothing when no log channel is configured, and its failure is swallowed),
DM the user, pop the ticket record and save, delete the channel.  Every
failure is swallowed by `except: pass`; nothing is ever reported back to
`closed_by`, which `surfacedToCloser` records. -/
def close_ticket (topic : Option Nat) (tk : List (Nat × Nat)) (chanId : Nat)
    (logChannelSet : Bool) (fl : CloseFlags) : CloseOut :=
  match resolveUid topic tk chanId with
  | some u =>
    { steps := [.buildTranscript, .postLog, .dmUser, .removeRecord, .deleteChannel]
      tickets := tk.filter (fun p => p.1 != u)
      transcriptDelivered := fl.transcriptOk && logChannelSet && fl.logOk
      userDmDelivered := fl.fetchUserOk && fl.dmOk
      channelDeleted := fl.deleteOk
      surfacedToCloser := false }
  | none =>
    { steps := [.buildTranscript, .postLog, .deleteChannel]
      tickets := tk
      transcriptDelivered := fl.transcriptOk && logChannelSet && fl.logOk
      userDmDelivered := false
      channelDeleted := fl.deleteOk
      surfacedToCloser := false }

/-! ### dm_countdown_then_create (main.py lines 274-301) -/

/-- Observable outcome of `dm_countdown_then_create`. -/
structure CountdownOut where
  g : Guild
  tickets : List (Nat × Nat)
  created : List Nat
  cooldownStarted : Bool
  errSent : Option CreateErr
deriving DecidableEq

/-- `dm_countdown_then_create(user, guild, ...)`: send the countdown embed
(failure → plain return), loop 15 edit/sleep iterations — the loop reads no
user input and cannot be cancelled — then unconditionally call
`create_ticket`; on error DM the error text, on success start the cooldown.
There is no confirm or cancel action anywhere on this path. -/
def dm_countdown_then_create (g : Guild) (tk : List (Nat × Nat)) (cfg : GuildCfg)
    (u : Nat) (dmOk : Bool) (netRes : Option Nat) : CountdownOut :=
  if !dmOk then ⟨g, tk, [], false, none⟩
  else
    match createTicket g tk cfg u netRes with
    | r =>
      match r.err with
      | some e => ⟨r.g, r.tickets, r.created, false, some e⟩
      | none => ⟨r.g, r.tickets, r.created, true, none⟩

/-! ### Staff-reply forwarding (main.py lines 534-569) -/

/-- `guild.get_role(staff_role_id) if staff_role_id else None`, requiring the
role to exist in the guild. -/
def staffRoleObj (staffRoleId : Option Nat) (g : Guild) : Option Nat :=
  match staffRoleId with
  | none => none
  | some rid =>
    if rid = 0 then none
    else if g.hasRole rid then some rid else none

/-- `member.guild_permissions.administrator or (role_obj and role_obj in
member.roles)`. -/
def mainStaffCheck (staffRoleId : Option Nat) (g : Guild) (a : Author) : Bool :=
  a.isAdmin ||
    (match staffRoleObj staffRoleId g with
     | some rid => a.roles.contains rid
     | none => false)

/-- The guild-message branch of main.py's `on_message`: if the message's
channel is a tracked ticket channel, forward it to the ticket's user iff the
author resolved to a member passing the staff/admin check; otherwise nothing
is relayed.  Returns the target user id when a forward is attempted. -/
def mainGuildForward (staffRoleId : Option Nat) (g : Guild)
    (tk : List (Nat × Nat)) (chanId : Nat) (a : Author) : Option Nat :=
  match findTicketUid tk chanId with
  | none => none
  | some uid =>
    if !a.isMemberObj then none
    else if mainStaffCheck staffRoleId g a then some uid else none

end MainPy

namespace BotPy

open Modmail

/-! ## Embedding of `modmail_bot.py` -/

/-- The persisted `data` dict (modmail_bot.py `DEFAULT_DATA`): keywords are
carried already lower-cased/stripped, as the handler normalises them before
comparing. -/
structure MData where
  category_id : Option Nat
  staff_role_id : Option Nat
  log_channel_id : Option Nat
  solve_keyword : List Char
  close_keyword : List Char
  tickets : List (Nat × Nat)
deriving DecidableEq

/-- `is_staff(member)` (modmail_bot.py lines 789-793): false when no staff
role is configured (Python truthiness: `None` or `0`), else membership of
that role id. -/
def is_staff (staffRoleId : Option Nat) (roles : List Nat) : Bool :=
  match staffRoleId with
  | none => false
  | some r => if r = 0 then false else roles.contains r

/-- Result of `create_ticket_channel_for_user`. -/
structure MCreateOut where
  g : Guild
  d : MData
  created : List Nat
  channel : Option Nat
deriving DecidableEq

/-- `create_ticket_channel_for_user(guild, user)` (modmail_bot.py lines
291-331): require a configured, existing category (truthiness on the id),
create the channel (`netRes` collapses the category attempt and the
guild-root fallback: the id returned, or `none` if both raised), then
unconditionally overwrite `data["tickets"][str(user.id)]` and save.  There
is no check whether the user already has a ticket. -/
def create_ticket_channel_for_user (g : Guild) (d : MData) (u : Nat)
    (netRes : Option Nat) : MCreateOut :=
  match d.category_id with
  | none => ⟨g, d, [], none⟩
  | some cid =>
    if cid = 0 then ⟨g, d, [], none⟩
    else if !(g.isCat cid) then ⟨g, d, [], none⟩
    else
      match netRes with
      | none => ⟨g, d, [], none⟩
      | some c =>
        ⟨g.addText c, { d with tickets := setTicket d.tickets u c }, [c], some c⟩

/-! ### DM confirmation gate (modmail_bot.py lines 336-487) -/

/-- How the gate resolved. -/
inductive GateOutcome
  | confirmed
  | cancelled
  | timedOut
deriving DecidableEq

/-- `DMConfirmView._countdown_loop`: one iteration per remaining second;
during each second the original user may press Confirm (`some true`) or
Cancel (`some false`), which cancels the loop task; when the counter reaches
zero without a confirmation the view times out.  Returns the outcome and the
number of seconds elapsed at resolution. -/
def countdownLoop (acts : Nat → Option Bool) : Nat → Nat → GateOutcome × Nat
  | 0, elapsed => (.timedOut, elapsed)
  | r + 1, elapsed =>
    match acts elapsed with
    | some true => (.confirmed, elapsed + 1)
    | some false => (.cancelled, elapsed + 1)
    | none => countdownLoop acts r (elapsed + 1)

/-- Observable outcome of one DM confirmation gate instance. -/
structure GateResult where
  outcome : GateOutcome
  resolvedAt : Nat
  d : MData
  g : Guild
  created : List Nat
deriving DecidableEq

/-- The whole gate: run the countdown; only the Confirm button handler calls
`create_ticket_channel_for_user` (after `bot.get_guild(PRIMARY_GUILD_ID)`,
whose availability is `guildOk`); Cancel and timeout only edit the prompt
and stop the view. -/
def gateRun (d : MData) (g : Guild) (guildOk : Bool) (u : Nat) (t : Nat)
    (acts : Nat → Option Bool) (netRes : Option Nat) : GateResult :=
  match countdownLoop acts t 0 with
  | (.confirmed, e) =>
    if !guildOk then ⟨.confirmed, e, d, g, []⟩
    else
      match create_ticket_channel_for_user g d u netRes with
      | r => ⟨.confirmed, e, r.d, r.g, r.created⟩
  | (o, e) => ⟨o, e, d, g, []⟩

/-! ### DM handling (modmail_bot.py lines 567-654) -/

/-- What the DM branch of `on_message` does with an inbound DM. -/
inductive DmOutcome
  | botIgnored
  | underageRejected
  | noGuild
  | forwardedToTicket (chan : Nat)
  | confirmPromptSent
deriving DecidableEq

/-- The DM branch of modmail_bot.py's `on_message`: bot authors are dropped;
then the account-age gate (`(now - user.created_at).days < 35`) rejects
before anything else; then the primary guild must resolve; then the ticket
map is consulted and the recorded channel fetched — if it is live the
message is forwarded there, otherwise the confirmation gate is started. -/
def on_message_dm (d : MData) (g? : Option Guild) (authorIsBot : Bool)
    (acctAgeDays : ℤ) (u : Nat) : DmOutcome :=
  if authorIsBot then .botIgnored
  else if acctAgeDays < 35 then .underageRejected
  else
    match g? with
    | none => .noGuild
    | some g =>
      match alook d.tickets u with
      | some cid =>
        match g.getChan cid with
        | some _ => .forwardedToTicket cid
        | none => .confirmPromptSent
      | none => .confirmPromptSent

/-! ### Ticket-channel handling (modmail_bot.py lines 657-784) -/

/-- What the guild-message branch does. -/
inductive MAction
  | ignored
  | solvedNotice (uid : Option Nat)
  | closedTicket (uid : Option Nat)
  | forwardToUser (uid : Nat)
  | forwardNoTarget
deriving DecidableEq

/-- `(data.get("solve_keyword") or "solved")`: empty string is falsy. -/
def kwOr (kw dflt : List Char) : List Char :=
  match kw with
  | [] => dflt
  | l => l

/-- `lc == kw or lc.startswith(kw)`. -/
def matchKw (lc kw : List Char) : Bool :=
  lc == kw || charsPref kw lc

/-- `message.channel.id in data["tickets"].values()`. -/
def ticketsHasChan (tk : List (Nat × Nat)) (c : Nat) : Bool :=
  tk.any (fun p => p.2 == c)

/-- The guild-message branch of modmail_bot.py's `on_message` (`lc` is the
message content already stripped and lower-cased, as the source computes it):
non-ticket channels fall through; non-staff authors are dropped before any
branch; staff messages either trigger the solve keyword, the close keyword,
or are forwarded to the ticket's user. -/
def on_message_guild (d : MData) (a : Author) (chanId : Nat) (lc : List Char) :
    MAction :=
  if !(ticketsHasChan d.tickets chanId) then .ignored
  else if !(is_staff d.staff_role_id a.roles || a.isAdmin) then .ignored
  else
    let sk := kwOr d.solve_keyword "solved".data
    let ck := kwOr d.close_keyword "close".data
    if matchKw lc sk then .solvedNotice (findTicketUid d.tickets chanId)
    else if matchKw lc ck then .closedTicket (findTicketUid d.tickets chanId)
    else
      match findTicketUid d.tickets chanId with
      | some uid => .forwardToUser uid
      | none => .forwardNoTarget

end BotPy

namespace Modmail

/-! ### Persistence (main.py `save_cfg`, modmail_bot.py `save_data`) -/

/-- File-system operations at the granularity the save routines use. -/
inductive FsOp
  | truncateFile (path : String)
  | writeFile (path : String) (content : String)
  | renameFile (src dst : String)
deriving DecidableEq

/-- Whether an operation is a rename. -/
def FsOp.isRename : FsOp → Bool
  | .renameFile _ _ => true
  | _ => false

/-- `save_cfg(cfg)`: `open(CONFIG_FILE, "w")` truncates the file in place,
then `json.dump` writes the new contents.  No temporary file, no rename. -/
def save_cfg_ops (content : String) : List FsOp :=
  [.truncateFile "config.json", .writeFile "config.json" content]

/-- `save_data(d)`: identical pattern on `modmail_data.json`. -/
def save_data_ops (content : String) : List FsOp :=
  [.truncateFile "modmail_data.json", .writeFile "modmail_data.json" content]

/-- Overwrite-or-add a file's contents. -/
def setFile (fs : List (String × String)) (p c : String) :
    List (String × String) :=
  (p, c) :: fs.filter (fun q => q.1 != p)

/-- Apply one operation to the file system (path → contents map). -/
def applyOp (fs : List (String × String)) : FsOp → List (String × String)
  | .truncateFile p => setFile fs p ""
  | .writeFile p c => setFile fs p c
  | .renameFile s d =>
    match alook fs s with
    | some c => setFile ((fs.filter (fun q => q.1 != s))) d c
    | none => fs

/-- Run a list of operations; a crash after `k` operations is modelled by
running `ops.take k`. -/
def runOps (fs : List (String × String)) (ops : List FsOp) :
    List (String × String) :=
  ops.foldl applyOp fs

/-- Read a file's contents. -/
def readFs (fs : List (String × String)) (p : String) : Option String :=
  alook fs p

/-! ### Spec-side vocabulary -/

/-- "Staff-authorized" in the spec's sense (glossary): holds the configured
staff role or the administrator capability.  Used to state the relay claims;
the code-side checks are `mainStaffCheck` and `is_staff`. -/
def staffAuthorized : Option Nat → Author → Bool
  | none, a => a.isAdmin
  | some rid, a => a.isAdmin || a.roles.contains rid

/-! ### Concrete instances used by witnesses and counterexamples -/

/-- A configured guild: channel 10 is a category, role 20 exists. -/
def gMain : Guild := ⟨[(10, ChanKind.category)], [20]⟩

/-- A matching main.py guild configuration. -/
def cfgMain : MainPy.GuildCfg := ⟨some 10, some 20, none, 300⟩

/-- An attachment whose filename differs from its URL. -/
def aX : MainPy.Attachment := ⟨"report.pdf", "https://cdn.example/a1"⟩

/-- A history message carrying `aX`. -/
def mX : MainPy.HMsg := ⟨"2024-01-01 00:00:00", "alice", 42, "hello", [aX]⟩

/-- A modmail_bot `data` record with an open ticket for user 7 in channel 555. -/
def dW : BotPy.MData :=
  ⟨some 10, some 20, none, "solved".data, "close".data, [(7, 555)]⟩

/-- A guild where `dW`'s category and ticket channel both exist. -/
def gW : Guild := ⟨[(10, ChanKind.category), (555, ChanKind.text)], [20]⟩

/-- A countdown during which the user never presses a button. -/
def noActs : Nat → Option Bool := fun _ => none

end Modmail

namespace Modmail

/-! ## Helper lemmas -/

theorem sdata_append (s t : String) : (s ++ t).data = s.data ++ t.data := by
  cases s; cases t; rfl

theorem charsPref_refl_append (l t : List Char) : charsPref l (l ++ t) = true := by
  induction l with
  | nil => rfl
  | cons a as ih => simp [charsPref, ih]

theorem charsSub_of_pref {pat l : List Char} (h : charsPref pat l = true) :
    charsSub pat l = true := by
  cases l with
  | nil => simpa [charsSub] using h
  | cons c cs => simp [charsSub, h]

theorem charsSub_of_infix {pat l : List Char} (h : pat <:+: l) :
    charsSub pat l = true := by
  obtain ⟨s, t, rfl⟩ := h
  induction s with
  | nil => exact charsSub_of_pref (by simpa using charsPref_refl_append pat t)
  | cons x xs ih =>
    have ih' : charsSub pat (xs ++ (pat ++ t)) = true := by
      simpa [List.append_assoc] using ih
    simp [charsSub, ih']

theorem alook_append_some {β : Type} [DecidableEq Nat] {l1 l2 : List (Nat × β)}
    {k : Nat} {v : β} (h : alook l1 k = some v) :
    alook (l1 ++ l2) k = some v := by
  induction l1 with
  | nil => simp [alook] at h
  | cons p r ih =>
    match p with
    | (a, b) =>
      by_cases hak : a = k
      · simpa [alook, hak] using by simpa [alook, hak] using h
      · simp [alook, hak] at h ⊢
        exact ih h

theorem alook_append_none {β : Type} {l1 l2 : List (Nat × β)} {k : Nat}
    (h : alook l1 k = none) : alook (l1 ++ l2) k = alook l2 k := by
  induction l1 with
  | nil => simp [alook]
  | cons p r ih =>
    match p with
    | (a, b) =>
      by_cases hak : a = k
      · simp [alook, hak] at h
      · simp [alook, hak] at h ⊢
        exact ih h

theorem alook_filter_ne {tk : List (Nat × Nat)} {u : Nat} :
    alook (tk.filter (fun p => p.1 != u)) u = none := by
  induction tk with
  | nil => simp [alook]
  | cons p r ih =>
    by_cases hp : p.1 = u
    · simpa [List.filter, hp] using ih
    · have hb : (p.1 != u) = true := by simp [hp]
      simp [List.filter, hb, alook, hp, ih]

theorem pyTrunc_intCast (n : ℤ) : pyTrunc (n : ℚ) = n := by
  unfold pyTrunc
  split <;> simp

theorem pyTrunc_nonpos {q : ℚ} (h : q ≤ 0) : pyTrunc q ≤ 0 := by
  unfold pyTrunc
  split
  · have : ⌊q⌋ ≤ ⌊(0 : ℚ)⌋ := Int.floor_le_floor h
    simpa using this
  · exact Int.ceil_le.mpr (by simpa using h)

/-! ## Claim theorems -/

/-- C8: `in_cooldown` returns exactly the configured cooldown immediately
after `start_cooldown` for that (guild, user), returns 0 once the cooldown
seconds have elapsed, and is never negative. -/
theorem c8_cooldown_boundary (st : List ((Nat × Nat) × ℚ)) (gid uid : Nat)
    (now later : ℚ) (cd : ℤ) (hcd : 0 ≤ cd)
    (helapsed : (cd : ℚ) ≤ later - now) :
    MainPy.in_cooldown (MainPy.start_cooldown st gid uid now) gid uid now cd = cd ∧
    MainPy.in_cooldown (MainPy.start_cooldown st gid uid now) gid uid later cd = 0 ∧
    0 ≤ MainPy.in_cooldown st gid uid now cd := by
  have hlast : MainPy.lookupLast (MainPy.start_cooldown st gid uid now) (gid, uid) = now := by
    simp [MainPy.lookupLast, MainPy.start_cooldown, alook]
  refine ⟨?_, ?_, le_max_left 0 _⟩
  · rw [MainPy.in_cooldown, hlast]
    simp [pyTrunc_intCast, max_eq_right hcd]
  · rw [MainPy.in_cooldown, hlast]
    have harg : (cd : ℚ) - (later - now) ≤ 0 := sub_nonpos.mpr helapsed
    exact max_eq_left (pyTrunc_nonpos harg)

/-- C8 witness: with cooldown 300, querying right after starting the
cooldown yields 300; querying 300 seconds later yields 0; and the query is
never negative. -/
theorem c8_cooldown_boundary_witness :
    MainPy.in_cooldown (MainPy.start_cooldown [] 1 2 0) 1 2 0 300 = 300 ∧
    MainPy.in_cooldown (MainPy.start_cooldown [] 1 2 0) 1 2 300 300 = 0 ∧
    0 ≤ MainPy.in_cooldown [] 1 2 0 300 :=
  c8_cooldown_boundary [] 1 2 0 300 300 (by norm_num) (by norm_num)

/-- C10: a DM from an account younger than 35 days is rejected before the
ticket lookup — whatever the ticket map holds, the outcome is the underage
rejection, so nothing is forwarded, no prompt is sent and no ticket is
created. -/
theorem c10_underage_rejected (d : BotPy.MData) (g? : Option Guild)
    (acct : ℤ) (u : Nat) (h : acct < 35) :
    BotPy.on_message_dm d g? false acct u = .underageRejected := by
  simp [BotPy.on_message_dm, h]

/-- C10 witness: user 7 has an open, live ticket in `dW`/`gW`, yet a DM from
their 10-day-old account is still rejected. -/
theorem c10_underage_rejected_witness :
    BotPy.on_message_dm dW (some gW) false 10 7 = .underageRejected :=
  c10_underage_rejected dW (some gW) 10 7 (by norm_num)

/-- C5 (amended): in main.py's `close_ticket` on a resolvable ticket channel,
the stages run in the fixed order build-transcript, post-log, DM-user,
remove-record, delete-channel; transcript/log/DM failures never prevent
record removal or channel deletion (the record is gone and deletion depends
only on its own flag); but no failure — channel deletion included — is ever
surfaced to the closer. -/
theorem c5_close_best_effort (topic : Option Nat) (tk : List (Nat × Nat))
    (chanId : Nat) (ls : Bool) (fl : MainPy.CloseFlags) (u : Nat)
    (h : MainPy.resolveUid topic tk chanId = some u) :
    (MainPy.close_ticket topic tk chanId ls fl).steps =
      [.buildTranscript, .postLog, .dmUser, .removeRecord, .deleteChannel] ∧
    alook (MainPy.close_ticket topic tk chanId ls fl).tickets u = none ∧
    (MainPy.close_ticket topic tk chanId ls fl).channelDeleted = fl.deleteOk ∧
    (MainPy.close_ticket topic tk chanId ls fl).surfacedToCloser = false := by
  refine ⟨?_, ?_, ?_, ?_⟩ <;> simp [MainPy.close_ticket, h, alook_filter_ne]

/-- C5 counterexample: every notification step succeeds but channel deletion
fails — and nothing is surfaced to the closer, contradicting the claim that
deletion failure is reported. -/
theorem c5_counterexample :
    (MainPy.close_ticket none [(7, 555)] 555 true ⟨true, true, true, true, false⟩).channelDeleted = false ∧
    (MainPy.close_ticket none [(7, 555)] 555 true ⟨true, true, true, true, false⟩).surfacedToCloser = false := by
  decide

/-- C5 witness: concrete run of the amended statement with a failing
channel deletion. -/
theorem c5_close_best_effort_witness :
    (MainPy.close_ticket none [(7, 555)] 555 true ⟨true, true, true, false, true⟩).steps =
      [.buildTranscript, .postLog, .dmUser, .removeRecord, .deleteChannel] ∧
    alook (MainPy.close_ticket none [(7, 555)] 555 true ⟨true, true, true, false, true⟩).tickets 7 = none ∧
    (MainPy.close_ticket none [(7, 555)] 555 true ⟨true, true, true, false, true⟩).channelDeleted = true ∧
    (MainPy.close_ticket none [(7, 555)] 555 true ⟨true, true, true, false, true⟩).surfacedToCloser = false := by
  have h := c5_close_best_effort none [(7, 555)] 555 true
    ⟨true, true, true, false, true⟩ 7 (by decide)
  exact ⟨h.1, h.2.1, h.2.2.1, h.2.2.2⟩

/-- C6 (amended): `save_cfg` (and `save_data`) write the new JSON directly
into the target file in place — truncate, then write — with no temporary
file and no rename anywhere in the operation sequence; a crash between the
truncation and the write leaves the persisted file empty, i.e. holding
neither the old nor any new contents. -/
theorem c6_save_not_atomic (old new : String) (h : old ≠ "") :
    readFs (runOps [("config.json", old)] ((save_cfg_ops new).take 1)) "config.json" = some "" ∧
    readFs (runOps [("config.json", old)] ((save_cfg_ops new).take 1)) "config.json" ≠ some old ∧
    (save_cfg_ops new).map FsOp.isRename = [false, false] ∧
    (save_data_ops new).map FsOp.isRename = [false, false] := by
  have h1 : readFs (runOps [("config.json", old)] ((save_cfg_ops new).take 1)) "config.json" = some "" := by
    simp [save_cfg_ops, runOps, applyOp, setFile, readFs, alook]
  refine ⟨h1, ?_, rfl, rfl⟩
  rw [h1]
  intro hc
  exact h (Option.some.inj hc).symm

/-- C6 counterexample: with concrete old and new contents, the crash point
between `open(..., "w")` and `json.dump` leaves `config.json` empty —
neither the old nor the new contents — and neither save routine contains a
rename step, refuting the claimed temp-file-then-rename pattern. -/
theorem c6_counterexample :
    readFs (runOps [("config.json", "OLDDATA")] ((save_cfg_ops "NEWDATA").take 1)) "config.json" = some "" ∧
    ("" : String) ≠ "OLDDATA" ∧ ("" : String) ≠ "NEWDATA" ∧
    (save_cfg_ops "NEWDATA").map FsOp.isRename = [false, false] ∧
    (save_data_ops "NEWDATA").map FsOp.isRename = [false, false] := by
  decide

/-- C6 witness: the amended statement at concrete contents. -/
theorem c6_save_not_atomic_witness :
    readFs (runOps [("config.json", "OLDDATA")] ((save_cfg_ops "NEWDATA").take 1)) "config.json" = some "" ∧
    readFs (runOps [("config.json", "OLDDATA")] ((save_cfg_ops "NEWDATA").take 1)) "config.json" ≠ some "OLDDATA" ∧
    (save_cfg_ops "NEWDATA").map FsOp.isRename = [false, false] ∧
    (save_data_ops "NEWDATA").map FsOp.isRename = [false, false] :=
  c6_save_not_atomic "OLDDATA" "NEWDATA" (by decide)

theorem headersOf_sublist (msgs : List MainPy.HMsg) :
    (MainPy.headersOf msgs).Sublist (MainPy.build_transcript msgs) := by
  induction msgs with
  | nil => simp [MainPy.headersOf, MainPy.build_transcript]
  | cons m rest ih =>
    show (MainPy.headerLine m :: MainPy.headersOf rest).Sublist
      ((MainPy.headerLine m :: m.attachments.map MainPy.attLine) ++
        MainPy.build_transcript rest)
    exact List.Sublist.cons₂ _ (ih.trans (List.sublist_append_right _ _))

theorem mem_build_transcript {msgs : List MainPy.HMsg} {m : MainPy.HMsg}
    {x : String} (hm : m ∈ msgs) (hx : x ∈ MainPy.msgLines m) :
    x ∈ MainPy.build_transcript msgs := by
  induction msgs with
  | nil => cases hm
  | cons m' rest ih =>
    show x ∈ MainPy.msgLines m' ++ MainPy.build_transcript rest
    rcases List.mem_cons.mp hm with h | h
    · subst h; exact List.mem_append_left _ hx
    · exact List.mem_append_right _ (ih h)

/-- C7 (amended): main.py's `build_transcript` covers the complete history
in chronological order — the per-message header lines appear as an ordered
sublist of the artifact — and each header line contains the message's
timestamp, author name, author id and text; each attachment contributes a
reference line carrying its URL.  (The filename is absent from attachment
references — see the counterexample.) -/
theorem c7_transcript_content (msgs : List MainPy.HMsg) (m : MainPy.HMsg)
    (a : MainPy.Attachment) (hm : m ∈ msgs) (ha : a ∈ m.attachments) :
    (MainPy.headersOf msgs).Sublist (MainPy.build_transcript msgs) ∧
    MainPy.headerLine m ∈ MainPy.build_transcript msgs ∧
    strContains (MainPy.headerLine m) m.createdAtStr = true ∧
    strContains (MainPy.headerLine m) m.authorStr = true ∧
    strContains (MainPy.headerLine m) (Nat.repr m.authorId) = true ∧
    strContains (MainPy.headerLine m) m.content = true ∧
    MainPy.attLine a ∈ MainPy.build_transcript msgs ∧
    strContains (MainPy.attLine a) a.url = true := by
  refine ⟨headersOf_sublist msgs,
    mem_build_transcript hm (by simp [MainPy.msgLines]), ?_, ?_, ?_, ?_,
    mem_build_transcript hm
      (by simp only [MainPy.msgLines, List.mem_cons]
          exact Or.inr (List.mem_map_of_mem _ ha)), ?_⟩
  · exact charsSub_of_infix ⟨"[".data,
      ("] " ++ m.authorStr ++ " (" ++ Nat.repr m.authorId ++ "): " ++ m.content).data,
      by simp [MainPy.headerLine, sdata_append, List.append_assoc]⟩
  · exact charsSub_of_infix ⟨("[" ++ m.createdAtStr ++ "] ").data,
      (" (" ++ Nat.repr m.authorId ++ "): " ++ m.content).data,
      by simp [MainPy.headerLine, sdata_append, List.append_assoc]⟩
  · exact charsSub_of_infix ⟨("[" ++ m.createdAtStr ++ "] " ++ m.authorStr ++ " (").data,
      ("): " ++ m.content).data,
      by simp [MainPy.headerLine, sdata_append, List.append_assoc]⟩
  · exact charsSub_of_infix ⟨("[" ++ m.createdAtStr ++ "] " ++ m.authorStr ++ " ("
        ++ Nat.repr m.authorId ++ "): ").data, [],
      by simp [MainPy.headerLine, sdata_append, List.append_assoc]⟩
  · exact charsSub_of_infix ⟨"    [attachment] ".data, [],
      by simp [MainPy.attLine, sdata_append]⟩

/-- C7 counterexample: the rendered transcript of a message carrying
attachment `report.pdf` consists of exactly these two lines, and neither of
them contains the filename — the attachment reference is URL-only, refuting
"a filename-plus-URL reference for each attachment". -/
theorem c7_counterexample :
    MainPy.build_transcript [mX] =
      ["[2024-01-01 00:00:00] alice (42): hello",
       "    [attachment] https://cdn.example/a1"] ∧
    strContains "    [attachment] https://cdn.example/a1" "report.pdf" = false ∧
    strContains "[2024-01-01 00:00:00] alice (42): hello" "report.pdf" = false := by
  decide

/-- C7 witness: the amended statement at the concrete one-message history. -/
theorem c7_transcript_content_witness :
    (MainPy.headersOf [mX]).Sublist (MainPy.build_transcript [mX]) ∧
    MainPy.headerLine mX ∈ MainPy.build_transcript [mX] ∧
    strContains (MainPy.headerLine mX) mX.createdAtStr = true ∧
    strContains (MainPy.headerLine mX) mX.authorStr = true ∧
    strContains (MainPy.headerLine mX) (Nat.repr mX.authorId) = true ∧
    strContains (MainPy.headerLine mX) mX.content = true ∧
    MainPy.attLine aX ∈ MainPy.build_transcript [mX] ∧
    strContains (MainPy.attLine aX) aX.url = true :=
  c7_transcript_content [mX] mX aX (by simp) (by simp [mX])

theorem not_staffAuthorized_isAdmin {sr : Option Nat} {a : Author}
    (h : staffAuthorized sr a = false) : a.isAdmin = false := by
  cases sr with
  | none => simpa [staffAuthorized] using h
  | some r =>
    rw [staffAuthorized] at h
    cases hA : a.isAdmin
    · rfl
    · rw [hA] at h; simp at h

theorem not_staffAuthorized_contains {r : Nat} {a : Author}
    (h : staffAuthorized (some r) a = false) : a.roles.contains r = false := by
  rw [staffAuthorized] at h
  cases hC : a.roles.contains r
  · rfl
  · rw [hC] at h; simp at h

theorem mainStaffCheck_of_not_staffAuthorized {sr : Option Nat} {g : Guild}
    {a : Author} (h : staffAuthorized sr a = false) :
    MainPy.mainStaffCheck sr g a = false := by
  have hadm := not_staffAuthorized_isAdmin h
  cases sr with
  | none => simp [MainPy.mainStaffCheck, MainPy.staffRoleObj, hadm]
  | some r =>
    have hmem : r ∉ a.roles := by simpa using not_staffAuthorized_contains h
    by_cases h0 : r = 0
    · simp [MainPy.mainStaffCheck, MainPy.staffRoleObj, hadm, h0]
    · by_cases hr : g.hasRole r = true <;>
        simp [MainPy.mainStaffCheck, MainPy.staffRoleObj, hadm, h0, hr, hmem]

theorem is_staff_of_not_staffAuthorized {sr : Option Nat} {a : Author}
    (h : staffAuthorized sr a = false) : BotPy.is_staff sr a.roles = false := by
  cases sr with
  | none => rfl
  | some r =>
    have hmem : r ∉ a.roles := by simpa using not_staffAuthorized_contains h
    by_cases h0 : r = 0 <;> simp [BotPy.is_staff, h0, hmem]

theorem mainForward_none_of_not_staffAuthorized {sr : Option Nat} {g : Guild}
    {tk : List (Nat × Nat)} {chanId : Nat} {a : Author}
    (h : staffAuthorized sr a = false) :
    MainPy.mainGuildForward sr g tk chanId a = none := by
  unfold MainPy.mainGuildForward
  split
  · rfl
  · split
    · rfl
    · simp [mainStaffCheck_of_not_staffAuthorized h]

theorem bot_ignored_of_not_staffAuthorized {d : BotPy.MData} {a : Author}
    {chanId : Nat} {lc : List Char}
    (h : staffAuthorized d.staff_role_id a = false) :
    BotPy.on_message_guild d a chanId lc = .ignored := by
  have hadm := not_staffAuthorized_isAdmin h
  unfold BotPy.on_message_guild
  split
  · rfl
  · simp [is_staff_of_not_staffAuthorized h, hadm]

/-- C4: in both files, a message posted in a tracked ticket channel is
forwarded to the ticket's user only if its author is staff-authorized
(configured staff role or administrator), and a non-staff-authorized author
is never relayed. -/
theorem c4_relay_staff_only (staffRoleId : Option Nat) (g : Guild)
    (tk : List (Nat × Nat)) (chanId : Nat) (a : Author) (d : BotPy.MData)
    (lc : List Char) :
    (∀ uid, MainPy.mainGuildForward staffRoleId g tk chanId a = some uid →
      staffAuthorized staffRoleId a = true) ∧
    (∀ uid, BotPy.on_message_guild d a chanId lc = .forwardToUser uid →
      staffAuthorized d.staff_role_id a = true) ∧
    (staffAuthorized staffRoleId a = false →
      MainPy.mainGuildForward staffRoleId g tk chanId a = none) ∧
    (staffAuthorized d.staff_role_id a = false →
      BotPy.on_message_guild d a chanId lc = .ignored) := by
  refine ⟨?_, ?_,
    fun h => mainForward_none_of_not_staffAuthorized h,
    fun h => bot_ignored_of_not_staffAuthorized h⟩
  · intro uid h
    cases hsa : staffAuthorized staffRoleId a
    · rw [mainForward_none_of_not_staffAuthorized hsa] at h
      cases h
    · rfl
  · intro uid h
    cases hsa : staffAuthorized d.staff_role_id a
    · rw [bot_ignored_of_not_staffAuthorized hsa] at h
      cases h
    · rfl

/-- C4 witness: a staff-role-holding author's message in ticket channel 555
is forwarded to user 7, and the theorem certifies the author was
staff-authorized. -/
theorem c4_relay_staff_only_witness :
    staffAuthorized (some 20) ⟨true, false, [20]⟩ = true :=
  (c4_relay_staff_only (some 20) gW [(7, 555)] 555 ⟨true, false, [20]⟩ dW
    "hi".data).1 7 (by decide)

theorem getChan_of_isCat {g : Guild} {cid : Nat} (h : g.isCat cid = true) :
    g.getChan cid = some ChanKind.category := by
  unfold Guild.isCat at h
  cases hc : g.getChan cid with
  | none => simp [hc] at h
  | some k =>
    cases k with
    | category => rfl
    | text => simp [hc] at h

theorem isCat_addText {g : Guild} {cid c : Nat} (h : g.isCat cid = true) :
    (g.addText c).isCat cid = true := by
  have h2 : alook g.channels cid = some ChanKind.category := getChan_of_isCat h
  simp only [Guild.addText, Guild.isCat, Guild.getChan]
  rw [alook_append_some h2]

theorem getChannelAny_addText_fresh {g : Guild} {c : Nat}
    (h : alook g.channels c = none) :
    (g.addText c).getChannelAny c = some c := by
  simp only [Guild.addText, Guild.getChannelAny, Guild.getChan]
  rw [alook_append_none h]
  simp [alook]

theorem alook_setTicket (tk : List (Nat × Nat)) (u c : Nat) :
    alook (setTicket tk u c) u = some c := by
  simp [setTicket, alook]

theorem checkPhase_proceed {g : Guild} {tk : List (Nat × Nat)}
    {cat role u : Nat} {lcid : Option Nat} {cdv : Int}
    (hcat0 : cat ≠ 0) (hrole0 : role ≠ 0) (hcat : g.isCat cat = true)
    (hrole : g.hasRole role = true) (htk : alook tk u = none) :
    MainPy.checkPhase g tk ⟨some cat, some role, lcid, cdv⟩ u = .proceed := by
  simp [MainPy.checkPhase, hcat0, hrole0, hcat, hrole, htk]

theorem checkPhase_already {g : Guild} {tk : List (Nat × Nat)}
    {cat role u cid : Nat} {lcid : Option Nat} {cdv : Int}
    (hcat0 : cat ≠ 0) (hrole0 : role ≠ 0) (hcat : g.isCat cat = true)
    (hrole : g.hasRole role = true) (htk : alook tk u = some cid) :
    MainPy.checkPhase g tk ⟨some cat, some role, lcid, cdv⟩ u =
      .resolved (g.getChannelAny cid) (some .alreadyOpen) := by
  simp [MainPy.checkPhase, hcat0, hrole0, hcat, hrole, htk]

/-- C2: main.py's `create_ticket` is idempotent — from a no-ticket state, the
first call creates channel `c1` and records it; a second call for the same
user (whatever its network call would return) hands back the same channel
`c1` with the AlreadyOpen notice, creates no channel, and leaves the guild
and the ticket map untouched.  In modmail_bot.py, the DM entry path of a
user with a live recorded ticket forwards to that channel instead of opening
anything. -/
theorem c2_open_idempotent (g : Guild) (tk : List (Nat × Nat))
    (cat role u c1 : Nat) (net2 : Option Nat) (d : BotPy.MData) (g2 : Guild)
    (acct : ℤ) (u2 c2ch : Nat)
    (hcat0 : cat ≠ 0) (hrole0 : role ≠ 0) (hcat : g.isCat cat = true)
    (hrole : g.hasRole role = true) (htk : alook tk u = none)
    (hfresh : alook g.channels c1 = none)
    (hage : ¬ acct < 35) (htk2 : alook d.tickets u2 = some c2ch)
    (hch2 : (g2.getChan c2ch).isSome = true) :
    MainPy.createTicket g tk ⟨some cat, some role, none, 300⟩ u (some c1) =
      ⟨g.addText c1, setTicket tk u c1, [c1], some c1, none⟩ ∧
    MainPy.createTicket (g.addText c1) (setTicket tk u c1)
        ⟨some cat, some role, none, 300⟩ u net2 =
      ⟨g.addText c1, setTicket tk u c1, [], some c1, some .alreadyOpen⟩ ∧
    BotPy.on_message_dm d (some g2) false acct u2 = .forwardedToTicket c2ch := by
  refine ⟨?_, ?_, ?_⟩
  · unfold MainPy.createTicket
    rw [checkPhase_proceed hcat0 hrole0 hcat hrole htk]
  · unfold MainPy.createTicket
    rw [checkPhase_already hcat0 hrole0 (isCat_addText hcat) hrole
      (alook_setTicket tk u c1)]
    rw [getChannelAny_addText_fresh hfresh]
  · obtain ⟨k, hk⟩ := Option.isSome_iff_exists.mp hch2
    simp [BotPy.on_message_dm, hage, htk2, hk]

/-- C2 witness: the concrete configured guild, first call creating channel
100, second call returning it as AlreadyOpen; and `dW`'s user 7 with live
channel 555 gets forwarded. -/
theorem c2_open_idempotent_witness :
    MainPy.createTicket gMain [] cfgMain 1 (some 100) =
      ⟨gMain.addText 100, setTicket [] 1 100, [100], some 100, none⟩ ∧
    MainPy.createTicket (gMain.addText 100) (setTicket [] 1 100) cfgMain 1 (some 101) =
      ⟨gMain.addText 100, setTicket [] 1 100, [], some 100, some .alreadyOpen⟩ ∧
    BotPy.on_message_dm dW (some gW) false 40 7 = .forwardedToTicket 555 :=
  c2_open_idempotent gMain [] 10 20 1 100 (some 101) dW gW 40 7 555
    (by decide) (by decide) (by decide) (by decide) (by decide) (by decide)
    (by norm_num) (by decide) (by decide)

/-- C1 counterexample: user 1's two open triggers interleave so that the
second trigger's already-open check runs before the first trigger's commit:
two channels (100 and 101) are created, the second trigger finishes with a
freshly created channel — not AlreadyOpen — and the surviving record points
at 101, orphaning 100.  This refutes "exactly one channel is ultimately
created; the second trigger resolves to AlreadyOpen". -/
theorem c1_counterexample :
    (MainPy.raceRun cfgMain 1 100 101 gMain [] [false, true, false, true]).created = [100, 101] ∧
    (MainPy.raceRun cfgMain 1 100 101 gMain [] [false, true, false, true]).p1 =
      .finished (some 101) none ∧
    (MainPy.raceRun cfgMain 1 100 101 gMain [] [false, true, false, true]).tickets = [(1, 101)] := by
  decide

/-- C1 (amended): `create_ticket` checks "does this user already have a
ticket" only before its channel-creation network call and never re-checks
before committing the record.  Consequently, when the second trigger's check
runs before the first trigger's commit (schedule check₀ check₁ commit₀
commit₁) both triggers create channels and the second commit overwrites the
first's record; only when the second trigger starts after the first's commit
(schedule check₀ commit₀ check₁ commit₁) does it resolve to AlreadyOpen
against the first channel with exactly one channel created. -/
theorem c1_no_recheck_before_commit (g : Guild) (u cat role c0 c1 : Nat)
    (hcat0 : cat ≠ 0) (hrole0 : role ≠ 0) (hcat : g.isCat cat = true)
    (hrole : g.hasRole role = true) (hf0 : alook g.channels c0 = none) :
    (MainPy.raceRun ⟨some cat, some role, none, 300⟩ u c0 c1 g []
        [false, true, false, true]).created = [c0, c1] ∧
    (MainPy.raceRun ⟨some cat, some role, none, 300⟩ u c0 c1 g []
        [false, true, false, true]).p1 = .finished (some c1) none ∧
    alook (MainPy.raceRun ⟨some cat, some role, none, 300⟩ u c0 c1 g []
        [false, true, false, true]).tickets u = some c1 ∧
    (MainPy.raceRun ⟨some cat, some role, none, 300⟩ u c0 c1 g []
        [false, false, true, true]).created = [c0] ∧
    (MainPy.raceRun ⟨some cat, some role, none, 300⟩ u c0 c1 g []
        [false, false, true, true]).p1 = .finished (some c0) (some .alreadyOpen) := by
  have hcp : MainPy.checkPhase g [] ⟨some cat, some role, none, 300⟩ u = .proceed :=
    checkPhase_proceed hcat0 hrole0 hcat hrole rfl
  have hca : MainPy.checkPhase (g.addText c0) [(u, c0)]
      ⟨some cat, some role, none, 300⟩ u = .resolved (some c0) (some .alreadyOpen) := by
    rw [checkPhase_already hcat0 hrole0 (isCat_addText hcat) hrole
      (show alook [(u, c0)] u = some c0 by simp [alook])]
    rw [getChannelAny_addText_fresh hf0]
  refine ⟨?_, ?_, ?_, ?_, ?_⟩ <;>
    simp [MainPy.raceRun, MainPy.raceStep, MainPy.stepP, hcp, hca,
      setTicket, alook]

/-- C1 witness: the amended statement at the concrete configured guild. -/
theorem c1_no_recheck_before_commit_witness :
    (MainPy.raceRun cfgMain 1 100 101 gMain [] [false, true, false, true]).created = [100, 101] ∧
    (MainPy.raceRun cfgMain 1 100 101 gMain [] [false, true, false, true]).p1 =
      .finished (some 101) none ∧
    alook (MainPy.raceRun cfgMain 1 100 101 gMain [] [false, true, false, true]).tickets 1 = some 101 ∧
    (MainPy.raceRun cfgMain 1 100 101 gMain [] [false, false, true, true]).created = [100] ∧
    (MainPy.raceRun cfgMain 1 100 101 gMain [] [false, false, true, true]).p1 =
      .finished (some 100) (some .alreadyOpen) :=
  c1_no_recheck_before_commit gMain 1 10 20 100 101
    (by decide) (by decide) (by decide) (by decide) (by decide)

theorem countdownLoop_elapsed_le (acts : Nat → Option Bool) :
    ∀ (r e : Nat), (BotPy.countdownLoop acts r e).2 ≤ e + r := by
  intro r
  induction r with
  | zero => intro e; simp [BotPy.countdownLoop]
  | succ n ih =>
    intro e
    rw [BotPy.countdownLoop]
    cases hae : acts e with
    | none =>
      have := ih (e + 1)
      simp only [hae]
      omega
    | some b => cases b <;> simp [hae]

/-- C3 (amended): modmail_bot.py's DM confirmation gate resolves to exactly
one of Confirmed / Cancelled / TimedOut, within the timeout, and any
non-Confirmed resolution leaves the data record, the guild and the set of
created channels unchanged (no ticket, no channel).  main.py's
`dm_countdown_then_create`, by contrast, takes no user action at all: when
its countdown expires on a configured guild it creates the ticket channel
and starts the cooldown. -/
theorem c3_gate_resolution (d : BotPy.MData) (g : Guild) (guildOk : Bool)
    (u t : Nat) (acts : Nat → Option Bool) (netRes : Option Nat)
    (gm : Guild) (tkm : List (Nat × Nat)) (cat role um cm : Nat)
    (hcat0 : cat ≠ 0) (hrole0 : role ≠ 0) (hcat : gm.isCat cat = true)
    (hrole : gm.hasRole role = true) (htk : alook tkm um = none) :
    (BotPy.gateRun d g guildOk u t acts netRes).resolvedAt ≤ t ∧
    ((BotPy.gateRun d g guildOk u t acts netRes).outcome = .confirmed ∨
     (BotPy.gateRun d g guildOk u t acts netRes).outcome = .cancelled ∨
     (BotPy.gateRun d g guildOk u t acts netRes).outcome = .timedOut) ∧
    ((BotPy.gateRun d g guildOk u t acts netRes).outcome ≠ .confirmed →
      (BotPy.gateRun d g guildOk u t acts netRes).d = d ∧
      (BotPy.gateRun d g guildOk u t acts netRes).g = g ∧
      (BotPy.gateRun d g guildOk u t acts netRes).created = []) ∧
    (MainPy.dm_countdown_then_create gm tkm ⟨some cat, some role, none, 300⟩
        um true (some cm)).created = [cm] ∧
    (MainPy.dm_countdown_then_create gm tkm ⟨some cat, some role, none, 300⟩
        um true (some cm)).cooldownStarted = true := by
  have hct : MainPy.createTicket gm tkm ⟨some cat, some role, none, 300⟩ um (some cm) =
      ⟨gm.addText cm, setTicket tkm um cm, [cm], some cm, none⟩ := by
    unfold MainPy.createTicket
    rw [checkPhase_proceed hcat0 hrole0 hcat hrole htk]
  have he : (BotPy.countdownLoop acts t 0).2 ≤ t := by
    simpa using countdownLoop_elapsed_le acts t 0
  rcases hcl : BotPy.countdownLoop acts t 0 with ⟨o, e⟩
  rw [hcl] at he
  refine ⟨?_, ?_, ?_, ?_, ?_⟩
  · unfold BotPy.gateRun
    rw [hcl]
    cases o <;> cases guildOk <;> simp [he]
  · unfold BotPy.gateRun
    rw [hcl]
    cases o <;> cases guildOk <;> simp
  · unfold BotPy.gateRun
    rw [hcl]
    cases o <;> cases guildOk <;> simp
  · simp [MainPy.dm_countdown_then_create, hct]
  · simp [MainPy.dm_countdown_then_create, hct]

/-- C3 counterexample: main.py's DM countdown offers no confirm or cancel
action; for a user with no open ticket on a configured guild, the countdown
simply expiring — which is the gate's TimedOut case, since no confirmation
was (or could be) given — creates the ticket channel, records it, and starts
the cooldown, refuting "when it resolves to TimedOut no ticket is created
and no channel exists". -/
theorem c3_counterexample :
    (MainPy.dm_countdown_then_create gMain [] cfgMain 1 true (some 100)).created = [100] ∧
    (MainPy.dm_countdown_then_create gMain [] cfgMain 1 true (some 100)).tickets = [(1, 100)] ∧
    (MainPy.dm_countdown_then_create gMain [] cfgMain 1 true (some 100)).cooldownStarted = true := by
  decide

/-- C3 witness: a 15-second gate the user never touches times out within 15
seconds and creates nothing, while main.py's countdown creates channel 100. -/
theorem c3_gate_resolution_witness :
    (BotPy.gateRun dW gW true 7 15 noActs none).resolvedAt ≤ 15 ∧
    (BotPy.gateRun dW gW true 7 15 noActs none).d = dW ∧
    (BotPy.gateRun dW gW true 7 15 noActs none).created = [] ∧
    (MainPy.dm_countdown_then_create gMain [] cfgMain 1 true (some 100)).created = [100] := by
  have h := c3_gate_resolution dW gW true 7 15 noActs none gMain [] 10 20 1 100
    (by decide) (by decide) (by decide) (by decide) (by decide)
  have hnc := h.2.2.1 (by decide)
  exact ⟨h.1, hnc.1, hnc.2.2, h.2.2.2.1⟩

/-- C9 (amended): when a user's recorded channel no longer exists,
modmail_bot.py's DM path treats them as having no ticket (it falls through
to the confirmation prompt), and a subsequent confirmed creation succeeds,
overwriting the stale record with the fresh channel; main.py's
`create_ticket`, however, returns the "You already have an open ticket"
error with no channel, so the orphaned record is never healed there. -/
theorem c9_orphan_selfheal (d : BotPy.MData) (g : Guild) (acct : ℤ)
    (u cid cNew cat : Nat) (gm : Guild) (tkm : List (Nat × Nat))
    (catm rolem um cidm : Nat) (netm : Option Nat)
    (hage : ¬ acct < 35) (h1 : alook d.tickets u = some cid)
    (h2 : g.getChan cid = none) (hc : d.category_id = some cat)
    (hc0 : cat ≠ 0) (hcat : g.isCat cat = true)
    (hm0 : catm ≠ 0) (hm1 : rolem ≠ 0) (hm2 : gm.isCat catm = true)
    (hm3 : gm.hasRole rolem = true) (hm4 : alook tkm um = some cidm)
    (hm5 : gm.getChan cidm = none) :
    BotPy.on_message_dm d (some g) false acct u = .confirmPromptSent ∧
    alook (BotPy.create_ticket_channel_for_user g d u (some cNew)).d.tickets u = some cNew ∧
    (BotPy.create_ticket_channel_for_user g d u (some cNew)).channel = some cNew ∧
    (BotPy.create_ticket_channel_for_user g d u (some cNew)).created = [cNew] ∧
    MainPy.createTicket gm tkm ⟨some catm, some rolem, none, 300⟩ um netm =
      ⟨gm, tkm, [], none, some .alreadyOpen⟩ := by
  have hcr : BotPy.create_ticket_channel_for_user g d u (some cNew) =
      ⟨g.addText cNew, { d with tickets := setTicket d.tickets u cNew }, [cNew], some cNew⟩ := by
    simp [BotPy.create_ticket_channel_for_user, hc, hc0, hcat]
  have hga : gm.getChannelAny cidm = none := by
    simp [Guild.getChannelAny, hm5]
  refine ⟨?_, ?_, ?_, ?_, ?_⟩
  · simp [BotPy.on_message_dm, hage, h1, h2]
  · rw [hcr]; exact alook_setTicket d.tickets u cNew
  · rw [hcr]
  · rw [hcr]
  · unfold MainPy.createTicket
    rw [checkPhase_already hm0 hm1 hm2 hm3 hm4, hga]

/-- C9 counterexample: user 7's record points at channel 555 which is not in
the guild; `create_ticket` returns no channel with the AlreadyOpen error,
creates nothing and leaves the stale record — the claimed "subsequent
ticket-open succeeds in creating a fresh channel rather than being rejected
as already open" is false for main.py. -/
theorem c9_counterexample :
    MainPy.createTicket gMain [(7, 555)] cfgMain 7 (some 999) =
      ⟨gMain, [(7, 555)], [], none, some .alreadyOpen⟩ := by
  decide

/-- C9 witness: the amended statement with `dW`'s record pointing at channel
555, which is absent from `gMain`. -/
theorem c9_orphan_selfheal_witness :
    BotPy.on_message_dm dW (some gMain) false 40 7 = .confirmPromptSent ∧
    alook (BotPy.create_ticket_channel_for_user gMain dW 7 (some 600)).d.tickets 7 = some 600 ∧
    (BotPy.create_ticket_channel_for_user gMain dW 7 (some 600)).channel = some 600 ∧
    (BotPy.create_ticket_channel_for_user gMain dW 7 (some 600)).created = [600] ∧
    MainPy.createTicket gMain [(7, 555)] cfgMain 7 (some 999) =
      ⟨gMain, [(7, 555)], [], none, some .alreadyOpen⟩ :=
  c9_orphan_selfheal dW gMain 40 7 555 600 10 gMain [(7, 555)] 10 20 7 555 (some 999)
    (by norm_num) (by decide) (by decide) (by decide) (by decide) (by decide)
    (by decide) (by decide) (by decide) (by decide) (by decide) (by decide)

end Modmail

